import Mathlib

/-
Shallow embedding of the two source files of the mcp-devto-local repository:

  src/devto-test.py : the publish_blog_to_devto tool and the
    blog_post_generator_prompt template.
  src/main.py       : the add_numbers tool.

The Python functions are translated into executable Lean definitions.  The
outbound HTTP transport (requests.post together with everything that can be
raised inside the try block) is modelled as an oracle argument mapping the
constructed request to an outcome: a response, a raised
requests.exceptions.RequestException (this also covers the HTTPError raised
by response.raise_for_status and the JSONDecodeError raised by
response.json), or any other raised exception.  The environment variable
DEVTO_API_KEY is modelled as an Option String argument.
-/

namespace DevtoMcp

/-- JSON values occurring inside the article payload that
publish_blog_to_devto builds: strings, booleans and arrays of strings. -/
inductive JVal where
  | str : String → JVal
  | bool : Bool → JVal
  | arr : List String → JVal
deriving DecidableEq, Repr

/-- The typed parameters of publish_blog_to_devto, with the Python defaults
(tags=None, published=False, series=None, canonical_url=None,
cover_image=None) represented by the callers passing none / false. -/
structure PublishArgs where
  title : String
  body_markdown : String
  tags : Option (List String)
  published : Bool
  series : Option String
  canonical_url : Option String
  cover_image : Option String
deriving DecidableEq, Repr

/-- One optional list-valued field of the payload.  Mirrors the Python
statement: if tags: article_data["article"]["tags"] = tags.  A None value or
an empty list is falsy, so the field is omitted; a non-empty list is
included verbatim. -/
def optListField (k : String) (v : Option (List String)) : List (String × JVal) :=
  match v with
  | some l => if l.isEmpty then [] else [(k, JVal.arr l)]
  | none => []

/-- One optional string-valued field of the payload.  Mirrors the Python
statements such as: if series: article_data["article"]["series"] = series.
A None value or an empty string is falsy, so the field is omitted; a
non-empty string is included verbatim. -/
def optStrField (k : String) (v : Option String) : List (String × JVal) :=
  match v with
  | some s => if s.isEmpty then [] else [(k, JVal.str s)]
  | none => []

/-- The key/value pairs of the inner "article" object, in Python dict
insertion order: the mandatory title, body_markdown and published entries,
then each optional field appended only when its argument is truthy. -/
def articleFields (a : PublishArgs) : List (String × JVal) :=
  [("title", JVal.str a.title),
   ("body_markdown", JVal.str a.body_markdown),
   ("published", JVal.bool a.published)]
  ++ optListField "tags" a.tags
  ++ optStrField "series" a.series
  ++ optStrField "canonical_url" a.canonical_url
  ++ optStrField "cover_image" a.cover_image

/-- The outbound JSON body: a nested object whose single key "article" holds
the article fields. -/
structure ArticlePayload where
  article : List (String × JVal)
deriving DecidableEq, Repr

/-- The fixed dev.to publishing endpoint DEVTO_API_URL of the source. -/
def DEVTO_API_URL : String := "https://dev.to/api/articles"

/-- The outbound HTTP request as the source constructs it: the fixed URL,
the two headers (content type and the api-key header holding the
credential), and the JSON body. -/
structure HttpRequest where
  url : String
  headers : List (String × String)
  jsonBody : ArticlePayload
deriving DecidableEq, Repr

/-- Builds the request that requests.post is invoked with, from the
credential and the tool arguments. -/
def buildRequest (devto_api_key : String) (a : PublishArgs) : HttpRequest :=
  { url := DEVTO_API_URL
  , headers := [("Content-Type", "application/json"), ("api-key", devto_api_key)]
  , jsonBody := { article := articleFields a } }

/-- The parts of the parsed JSON response body that the source reads: the
optional "url" field and the optional "error" field. -/
structure ParsedJson where
  url : Option String
  error : Option String
deriving DecidableEq, Repr

/-- An HTTP response as the source observes it: the status code, the reason
phrase (used by raise_for_status when building the HTTPError message), and
the result of response.json() — Except.error models json() raising a
JSONDecodeError on a malformed body. -/
structure HttpResponse where
  status_code : Nat
  reason : String
  jsonResult : Except String ParsedJson
deriving Repr

/-- Outcome of the transport oracle for one invocation: a response from
requests.post, a raised requests.exceptions.RequestException carrying its
message, or any other raised exception carrying its message. -/
inductive HttpOutcome where
  | response : HttpResponse → HttpOutcome
  | requestError : String → HttpOutcome
  | otherError : String → HttpOutcome
deriving Repr

/-- Message of the HTTPError that response.raise_for_status() raises, when
it raises one: statuses in [400,500) give a Client Error message, statuses
in [500,600) a Server Error message, anything else raises nothing.  The
message format follows the requests library. -/
def raise_for_status (r : HttpResponse) : Option String :=
  if 400 ≤ r.status_code ∧ r.status_code < 500 then
    some (toString r.status_code ++ " Client Error: " ++ r.reason
      ++ " for url: " ++ DEVTO_API_URL)
  else if 500 ≤ r.status_code ∧ r.status_code < 600 then
    some (toString r.status_code ++ " Server Error: " ++ r.reason
      ++ " for url: " ++ DEVTO_API_URL)
  else
    none

/-- Python str() of an optional string as an f-string renders it: the string
itself, or the text None when absent (response_json.get("url") returning
None). -/
def pyOptStr : Option String → String
  | some s => s
  | none => "None"

/-- The ConfigError string returned when the DEVTO_API_KEY environment
variable is unset or empty. -/
def configErrorMsg : String :=
  "Error: DEVTO_API_KEY environment variable is not set. Please set it to publish articles."

/-- Shallow embedding of publish_blog_to_devto.  The first argument models
os.getenv("DEVTO_API_KEY"); the transport oracle models requests.post and
every exception the try block can raise.  Mirrors the source line by line:
the credential check (if not devto_api_key — none and the empty string are
both falsy), the request construction, raise_for_status before the status
branching, response.json(), the 201 success branch reading the "url" field,
the non-201 branch reading the "error" field with default "Unknown error",
and the two except branches. -/
def publish_blog_to_devto (devto_api_key : Option String) (a : PublishArgs)
    (transport : HttpRequest → HttpOutcome) : String :=
  match devto_api_key with
  | none => configErrorMsg
  | some key =>
    if key.isEmpty then
      configErrorMsg
    else
      match transport (buildRequest key a) with
      | HttpOutcome.requestError e =>
          "An error occurred during the API request: " ++ e
      | HttpOutcome.otherError e =>
          "An unexpected error occurred: " ++ e
      | HttpOutcome.response r =>
          match raise_for_status r with
          | some httpError =>
              "An error occurred during the API request: " ++ httpError
          | none =>
              match r.jsonResult with
              | Except.error jsonError =>
                  "An error occurred during the API request: " ++ jsonError
              | Except.ok body =>
                  if r.status_code == 201 then
                    "Article published successfully! URL: " ++ pyOptStr body.url
                  else
                    "Failed to publish article. Status code: "
                      ++ toString r.status_code
                      ++ ", Error: " ++ body.error.getD "Unknown error"

/-- Shallow embedding of add_numbers from src/main.py. -/
def add_numbers (a b : Int) : Int := a + b

/-- The fixed text of the prompt template before the interpolated topic. -/
def promptHead : String :=
  "\n# Generate a Dev.to Blog Post\n\nPlease generate a comprehensive and engaging blog post about the following topic: **"

/-- The fixed text of the prompt template after the interpolated topic. -/
def promptTail : String :=
  "**.\n\nThe blog post should include:\n- A catchy and informative title.\n- An introduction that hooks the reader.\n- Several paragraphs discussing key aspects of the topic.\n- Code examples or technical details if applicable.\n- A conclusion that summarizes the main points and offers a call to action or further thoughts.\n- Use Markdown formatting extensively (headings, bold, italics, code blocks, lists).\n\nConsider the target audience to be developers and tech enthusiasts on Dev.to.\n"

/-- Shallow embedding of blog_post_generator_prompt: the Python f-string is
exactly the fixed head, the topic verbatim, and the fixed tail. -/
def blog_post_generator_prompt (topic : String) : String :=
  promptHead ++ topic ++ promptTail

/-- Proposition that the string pat occurs as a contiguous substring of s. -/
abbrev StrContains (s pat : String) : Prop :=
  pat.toList <:+: s.toList

/-- A sample argument record used to evaluate the tool on concrete inputs. -/
def exampleArgs : PublishArgs :=
  { title := "Test Title", body_markdown := "Hello **world**",
    tags := some ["python"], published := true,
    series := none, canonical_url := none, cover_image := none }

/-- Parsed body of a sample 201 response. -/
def json201ex : ParsedJson := { url := some "https://dev.to/user/test-1", error := none }

/-- A sample 201 Created response. -/
def resp201ex : HttpResponse :=
  { status_code := 201, reason := "Created", jsonResult := Except.ok json201ex }

/-- Parsed body of a sample 422 response, carrying an error message. -/
def json422ex : ParsedJson := { url := none, error := some "msg" }

/-- A sample 422 Unprocessable Entity response whose body is the JSON
object with an error field holding msg. -/
def resp422ex : HttpResponse :=
  { status_code := 422, reason := "Unprocessable Entity", jsonResult := Except.ok json422ex }

/-- Parsed body of a sample 200 response. -/
def json200ex : ParsedJson := { url := none, error := none }

/-- A sample 200 OK response with a parsed body. -/
def resp200ex : HttpResponse :=
  { status_code := 200, reason := "OK", jsonResult := Except.ok json200ex }

/-- Transport oracle that always answers with the sample 201 response. -/
def t201ex : HttpRequest → HttpOutcome := fun _ => HttpOutcome.response resp201ex

/-- Transport oracle that always answers with the sample 422 response. -/
def t422ex : HttpRequest → HttpOutcome := fun _ => HttpOutcome.response resp422ex

/-- Transport oracle that always answers with the sample 200 response. -/
def t200ex : HttpRequest → HttpOutcome := fun _ => HttpOutcome.response resp200ex

/-- Transport oracle that raises a connection failure, as
requests.exceptions.ConnectionError would. -/
def tFailEx : HttpRequest → HttpOutcome := fun _ => HttpOutcome.requestError "Connection refused"

/-- Looking a key up in a concatenation of association lists inspects the
left list first. -/
theorem lookup_append (k : String) (l₁ l₂ : List (String × JVal)) :
    List.lookup k (l₁ ++ l₂) = (List.lookup k l₁).or (List.lookup k l₂) := by
  induction l₁ with
  | nil => simp [List.lookup]
  | cons hd tl ih =>
    obtain ⟨k', v⟩ := hd
    cases h : k == k' <;> simp [List.lookup, h, ih]

/-- Looking up the own key of an optional string field gives its value
exactly when the value is truthy. -/
theorem lookup_optStrField_self (k : String) (v : Option String) :
    List.lookup k (optStrField k v)
      = (match v with
         | some s => if s.isEmpty then none else some (JVal.str s)
         | none => none) := by
  cases v with
  | none => rfl
  | some s => cases h : s.isEmpty <;> simp [optStrField, h, List.lookup]

/-- An optional string field never yields a binding for a different key. -/
theorem lookup_optStrField_ne (k k' : String) (h : (k == k') = false) (v : Option String) :
    List.lookup k (optStrField k' v) = none := by
  cases v with
  | none => rfl
  | some s => cases hs : s.isEmpty <;> simp [optStrField, hs, List.lookup, h]

/-- Looking up the own key of the optional list field gives its value
exactly when the value is truthy. -/
theorem lookup_optListField_self (k : String) (v : Option (List String)) :
    List.lookup k (optListField k v)
      = (match v with
         | some l => if l.isEmpty then none else some (JVal.arr l)
         | none => none) := by
  cases v with
  | none => rfl
  | some l => cases h : l.isEmpty <;> simp [optListField, h, List.lookup]

/-- An optional list field never yields a binding for a different key. -/
theorem lookup_optListField_ne (k k' : String) (h : (k == k') = false)
    (v : Option (List String)) :
    List.lookup k (optListField k' v) = none := by
  cases v with
  | none => rfl
  | some l => cases hs : l.isEmpty <;> simp [optListField, hs, List.lookup, h]

/-- A string appears as a substring of any concatenation surrounding it. -/
theorem contains_of_append (pre mid post : String) :
    StrContains (pre ++ mid ++ post) mid := by
  refine ⟨pre.toList, post.toList, ?_⟩
  simp [String.toList, String.data_append]

/-- A string appears as a substring at the end of a concatenation. -/
theorem contains_right (pre mid : String) :
    StrContains (pre ++ mid) mid := by
  refine ⟨pre.toList, [], ?_⟩
  simp [String.toList, String.data_append]

set_option maxRecDepth 8000 in
/-- The configuration-error string contains the marker text of the spec. -/
theorem configErrorMsg_contains_marker :
    StrContains configErrorMsg
      "Error: DEVTO_API_KEY environment variable is not set" := by
  decide

/-- Helper: with a truthy credential and a transport that raises a
RequestException, the tool returns the API-request error string. -/
theorem publish_requestError_eq (key : String) (hk : key.isEmpty = false)
    (a : PublishArgs) (t : HttpRequest → HttpOutcome) (e : String)
    (ht : t (buildRequest key a) = HttpOutcome.requestError e) :
    publish_blog_to_devto (some key) a t
      = "An error occurred during the API request: " ++ e := by
  simp [publish_blog_to_devto, hk, ht]

/-- Helper: a status code in [400,500) makes raise_for_status produce the
Client Error message, so the tool returns the API-request error string
built from the status code and the reason phrase, and the parsed body is
never consulted. -/
theorem publish_4xx_eq (key : String) (hk : key.isEmpty = false)
    (a : PublishArgs) (t : HttpRequest → HttpOutcome) (r : HttpResponse)
    (ht : t (buildRequest key a) = HttpOutcome.response r)
    (h4 : 400 ≤ r.status_code) (h5 : r.status_code < 500) :
    publish_blog_to_devto (some key) a t
      = "An error occurred during the API request: " ++ toString r.status_code
        ++ " Client Error: " ++ r.reason ++ " for url: " ++ DEVTO_API_URL := by
  have hrs : raise_for_status r
      = some (toString r.status_code ++ " Client Error: " ++ r.reason
          ++ " for url: " ++ DEVTO_API_URL) := by
    unfold raise_for_status
    rw [if_pos (by omega)]
  simp [publish_blog_to_devto, hk, ht, hrs, String.append_assoc]

set_option maxRecDepth 8000 in
/-- Claim C1, actual behavior at the failing input: because the source
calls response.raise_for_status() before branching on the status code, a
422 response with parsed body holding error msg raises an HTTPError (a
RequestException), so the tool returns the API-request error string built
from the status code and reason phrase.  That string contains 422 but does
not contain the body's error message msg, contradicting the claim that it
embeds the body's error field; the branch formatting the status code with
the body's error field is unreachable for 4xx/5xx statuses. -/
theorem C1_publish_422_actual_behavior :
    publish_blog_to_devto (some "key") exampleArgs t422ex
      = "An error occurred during the API request: 422 Client Error: Unprocessable Entity for url: https://dev.to/api/articles"
    ∧ StrContains (publish_blog_to_devto (some "key") exampleArgs t422ex) "422"
    ∧ ¬ StrContains (publish_blog_to_devto (some "key") exampleArgs t422ex) "msg" := by
  refine ⟨by decide, by decide, by decide⟩

/-- Claim C2: the outbound payload is the nested object holding the article
fields; the mandatory entries title, body_markdown and published are always
bound to the caller's values, and each optional field among tags, series,
canonical_url and cover_image is bound (verbatim) exactly when the caller
supplied a truthy value — a None, an empty string or an empty list leaves
the key absent entirely. -/
theorem C2_payload_optional_fields (a : PublishArgs) :
    (∀ key, (buildRequest key a).jsonBody.article = articleFields a)
  ∧ List.lookup "title" (articleFields a) = some (JVal.str a.title)
  ∧ List.lookup "body_markdown" (articleFields a) = some (JVal.str a.body_markdown)
  ∧ List.lookup "published" (articleFields a) = some (JVal.bool a.published)
  ∧ List.lookup "tags" (articleFields a)
      = (match a.tags with
         | some l => if l.isEmpty then none else some (JVal.arr l)
         | none => none)
  ∧ List.lookup "series" (articleFields a)
      = (match a.series with
         | some s => if s.isEmpty then none else some (JVal.str s)
         | none => none)
  ∧ List.lookup "canonical_url" (articleFields a)
      = (match a.canonical_url with
         | some s => if s.isEmpty then none else some (JVal.str s)
         | none => none)
  ∧ List.lookup "cover_image" (articleFields a)
      = (match a.cover_image with
         | some s => if s.isEmpty then none else some (JVal.str s)
         | none => none) := by
  refine ⟨fun _ => rfl, ?_, ?_, ?_, ?_, ?_, ?_, ?_⟩ <;>
    simp [articleFields, lookup_append, List.lookup,
          lookup_optStrField_self, lookup_optListField_self,
          lookup_optStrField_ne, lookup_optListField_ne,
          Option.or_none, Option.none_or]

/-- Claim C3: when the DEVTO_API_KEY environment variable is absent or
empty, the tool returns the configuration-error string containing the
marker text, and the result does not depend on the transport at all — no
outbound call is made. -/
theorem C3_missing_credential (a : PublishArgs) (k : Option String)
    (hk : k = none ∨ k = some "") (t t' : HttpRequest → HttpOutcome) :
    publish_blog_to_devto k a t = configErrorMsg
    ∧ publish_blog_to_devto k a t = publish_blog_to_devto k a t'
    ∧ StrContains (publish_blog_to_devto k a t)
        "Error: DEVTO_API_KEY environment variable is not set" := by
  rcases hk with rfl | rfl
  · exact ⟨rfl, rfl, configErrorMsg_contains_marker⟩
  · exact ⟨rfl, rfl, configErrorMsg_contains_marker⟩

/-- Witness for claim C3 at the concrete input of an absent credential. -/
theorem C3_missing_credential_witness :
    publish_blog_to_devto none exampleArgs t201ex = configErrorMsg
    ∧ publish_blog_to_devto none exampleArgs t201ex
        = publish_blog_to_devto none exampleArgs tFailEx
    ∧ StrContains (publish_blog_to_devto none exampleArgs t201ex)
        "Error: DEVTO_API_KEY environment variable is not set" :=
  C3_missing_credential exampleArgs none (Or.inl rfl) t201ex tFailEx

/-- Claim C4: with a truthy credential and a 201 response with a parsed
body, the tool returns the success string holding the body's url field
rendered as Python str() renders it; when the url field is the string X the
result contains X verbatim, and when the url field is absent the result is
still the success string (with the text None), no separate error being
raised. -/
theorem C4_created_201 (a : PublishArgs) (key : String) (hk : key.isEmpty = false)
    (t : HttpRequest → HttpOutcome) (r : HttpResponse) (j : ParsedJson)
    (ht : t (buildRequest key a) = HttpOutcome.response r)
    (hs : r.status_code = 201) (hj : r.jsonResult = Except.ok j) :
    publish_blog_to_devto (some key) a t
      = "Article published successfully! URL: " ++ pyOptStr j.url
    ∧ (∀ X, j.url = some X →
        StrContains (publish_blog_to_devto (some key) a t) X)
    ∧ (j.url = none →
        publish_blog_to_devto (some key) a t
          = "Article published successfully! URL: None") := by
  have hrs : raise_for_status r = none := by
    unfold raise_for_status
    rw [if_neg (by omega), if_neg (by omega)]
  have heq : publish_blog_to_devto (some key) a t
      = "Article published successfully! URL: " ++ pyOptStr j.url := by
    simp [publish_blog_to_devto, hk, ht, hrs, hj, hs]
  refine ⟨heq, ?_, ?_⟩
  · rintro X hX
    rw [heq, hX]
    exact contains_right _ X
  · intro hX
    rw [heq, hX]
    rfl

/-- Witness for claim C4 at the concrete sample 201 response. -/
theorem C4_created_201_witness :
    publish_blog_to_devto (some "key") exampleArgs t201ex
      = "Article published successfully! URL: " ++ pyOptStr json201ex.url
    ∧ StrContains (publish_blog_to_devto (some "key") exampleArgs t201ex)
        "https://dev.to/user/test-1" :=
  ⟨(C4_created_201 exampleArgs "key" (by decide) t201ex resp201ex json201ex
      rfl rfl rfl).1,
   (C4_created_201 exampleArgs "key" (by decide) t201ex resp201ex json201ex
      rfl rfl rfl).2.1 "https://dev.to/user/test-1" rfl⟩

/-- Claim C5: with a truthy credential, when the transport raises a
RequestException (connection refused, timeout, DNS failure, malformed
response), the tool returns the API-request error string holding the
failure's message — the message occurs as a substring — and, the embedding
being a total function into String, no exception escapes the tool call. -/
theorem C5_transport_failure (a : PublishArgs) (key : String)
    (hk : key.isEmpty = false) (t : HttpRequest → HttpOutcome) (e : String)
    (ht : t (buildRequest key a) = HttpOutcome.requestError e) :
    publish_blog_to_devto (some key) a t
      = "An error occurred during the API request: " ++ e
    ∧ StrContains (publish_blog_to_devto (some key) a t) e := by
  have heq := publish_requestError_eq key hk a t e ht
  refine ⟨heq, ?_⟩
  rw [heq]
  exact contains_right _ e

/-- Witness for claim C5 at the concrete connection-refused transport. -/
theorem C5_transport_failure_witness :
    publish_blog_to_devto (some "key") exampleArgs tFailEx
      = "An error occurred during the API request: " ++ "Connection refused"
    ∧ StrContains (publish_blog_to_devto (some "key") exampleArgs tFailEx)
        "Connection refused" :=
  C5_transport_failure exampleArgs "key" (by decide) tFailEx
    "Connection refused" rfl

/-- Claim C6: for every credential value, argument record and transport
outcome, the tool returns one of the five descriptive strings — the
configuration error, the API-request error, the unexpected error, the
success message or the failure message — so every failure path is converted
to a string and nothing propagates to the caller. -/
theorem C6_always_returns_descriptive_string (k : Option String)
    (a : PublishArgs) (t : HttpRequest → HttpOutcome) :
    publish_blog_to_devto k a t = configErrorMsg
    ∨ (∃ e, publish_blog_to_devto k a t
        = "An error occurred during the API request: " ++ e)
    ∨ (∃ e, publish_blog_to_devto k a t
        = "An unexpected error occurred: " ++ e)
    ∨ (∃ u, publish_blog_to_devto k a t
        = "Article published successfully! URL: " ++ u)
    ∨ (∃ c : Nat, ∃ e, publish_blog_to_devto k a t
        = "Failed to publish article. Status code: " ++ toString c
          ++ ", Error: " ++ e) := by
  cases k with
  | none => exact Or.inl rfl
  | some key =>
    cases hk : key.isEmpty with
    | true => exact Or.inl (by simp [publish_blog_to_devto, hk])
    | false =>
      cases ht : t (buildRequest key a) with
      | requestError e =>
        exact Or.inr (Or.inl ⟨e, by simp [publish_blog_to_devto, hk, ht]⟩)
      | otherError e =>
        exact Or.inr (Or.inr (Or.inl ⟨e, by simp [publish_blog_to_devto, hk, ht]⟩))
      | response r =>
        cases hrs : raise_for_status r with
        | some m =>
          exact Or.inr (Or.inl ⟨m, by simp [publish_blog_to_devto, hk, ht, hrs]⟩)
        | none =>
          cases hj : r.jsonResult with
          | error m =>
            exact Or.inr (Or.inl ⟨m, by simp [publish_blog_to_devto, hk, ht, hrs, hj]⟩)
          | ok body =>
            cases h201 : r.status_code == 201 with
            | true =>
              refine Or.inr (Or.inr (Or.inr (Or.inl ⟨pyOptStr body.url, ?_⟩)))
              simp [publish_blog_to_devto, hk, ht, hrs, hj, h201]
            | false =>
              refine Or.inr (Or.inr (Or.inr (Or.inr
                ⟨r.status_code, body.error.getD "Unknown error", ?_⟩)))
              simp [publish_blog_to_devto, hk, ht, hrs, hj, h201, String.append_assoc]

/-- Claim C7: the constructed request depends on the credential only
through the api-key header: for any two credential values the URL and the
JSON body are identical, the headers are exactly the content type and the
api-key header, and the URL is the fixed endpoint. -/
theorem C7_credential_only_in_header (k1 k2 : String) (a : PublishArgs) :
    (buildRequest k1 a).url = (buildRequest k2 a).url
    ∧ (buildRequest k1 a).jsonBody = (buildRequest k2 a).jsonBody
    ∧ (buildRequest k1 a).headers
        = [("Content-Type", "application/json"), ("api-key", k1)]
    ∧ (buildRequest k1 a).url = DEVTO_API_URL :=
  ⟨rfl, rfl, rfl, rfl⟩

/-- Claim C8: add_numbers returns exactly the integer sum of its arguments,
and in particular 2 + 3 = 5 and (-1) + 1 = 0. -/
theorem C8_add_numbers_sum (a b : Int) :
    add_numbers a b = a + b ∧ add_numbers 2 3 = 5 ∧ add_numbers (-1) 1 = 0 :=
  ⟨rfl, by decide, by decide⟩

/-- Claim C9: the prompt template is the fixed head, the topic verbatim and
the fixed tail, so for every topic the result contains the topic as a
substring and contains the markdown heading line. -/
theorem C9_prompt_contains_topic (topic : String) :
    blog_post_generator_prompt topic = promptHead ++ topic ++ promptTail
    ∧ StrContains (blog_post_generator_prompt topic) topic
    ∧ StrContains (blog_post_generator_prompt topic) "# Generate a Dev.to Blog Post" := by
  refine ⟨rfl, contains_of_append _ _ _, ?_⟩
  have h1 : StrContains promptHead "# Generate a Dev.to Blog Post" := by decide
  have h2 : promptHead.toList <:+: (blog_post_generator_prompt topic).toList := by
    refine ⟨[], topic.toList ++ promptTail.toList, ?_⟩
    simp [blog_post_generator_prompt, String.toList, String.data_append]
  exact h1.trans h2

/-- Claim C10: with a truthy credential, a response whose status is in the
success range [200,400) but is not 201, and a parsed body, raise_for_status
raises nothing and the tool reports the failure string built from the
status code and the body's error field (defaulting to Unknown error) — a
success-range status other than 201 is reported as a failure. -/
theorem C10_non_201_success_status_reported_failed (a : PublishArgs)
    (key : String) (hk : key.isEmpty = false) (t : HttpRequest → HttpOutcome)
    (r : HttpResponse) (j : ParsedJson)
    (ht : t (buildRequest key a) = HttpOutcome.response r)
    (h2 : 200 ≤ r.status_code) (h4 : r.status_code < 400)
    (hne : r.status_code ≠ 201) (hj : r.jsonResult = Except.ok j) :
    publish_blog_to_devto (some key) a t
      = "Failed to publish article. Status code: " ++ toString r.status_code
        ++ ", Error: " ++ j.error.getD "Unknown error" := by
  have hrs : raise_for_status r = none := by
    unfold raise_for_status
    rw [if_neg (by omega), if_neg (by omega)]
  have h201 : (r.status_code == 201) = false := by
    simp [hne]
  simp [publish_blog_to_devto, hk, ht, hrs, hj, h201, String.append_assoc]

/-- Witness for claim C10 at the concrete sample 200 response. -/
theorem C10_non_201_success_status_witness :
    publish_blog_to_devto (some "key") exampleArgs t200ex
      = "Failed to publish article. Status code: "
        ++ toString resp200ex.status_code
        ++ ", Error: " ++ json200ex.error.getD "Unknown error" :=
  C10_non_201_success_status_reported_failed exampleArgs "key" (by decide)
    t200ex resp200ex json200ex rfl (by decide) (by decide) (by decide) rfl

end DevtoMcp
